import Mathlib

/-!
Verification of the expense-tracker data pipeline (src/app.py).

The program is a Streamlit dashboard.  Its core is:
  - a session ledger (a pandas DataFrame with columns Date, Category,
    Amount, Description) plus a budget value (src/app.py lines 12-15);
  - a manual-entry handler (lines 29-41), a CSV upload handler
    (lines 51-62);
  - the cleaning transform clean_data (lines 65-73);
  - the dashboard body: budget alert (lines 83-87), metrics
    (lines 90-96), groupby summaries (lines 109, 117) and the
    Excel export (lines 127-133).

The embedding below translates those parts into pure Lean functions.
Ledger rows are lists of records, pandas NaN is Option.none, float
amounts are modelled as exact rationals, and a pandas monthly Period
value is modelled by the injective, order-preserving encoding
year * 100 + month.  pd.to_datetime and pd.to_numeric are library
functions; they are modelled on the string formats the ledger can
contain (ISO yyyy-mm-dd dates, optionally signed decimal numerals),
with errors=coerce rendered as Option.none.
-/

namespace ExpenseTrack

/-- Calendar date, the model of a pandas timestamp at day granularity. -/
structure Date where
  year : Nat
  month : Nat
  day : Nat
deriving DecidableEq, Repr

/-- Model of a pandas Period of frequency M: the encoding
year * 100 + month is injective for month in 1..12 and preserves the
chronological order, which is all the program uses (equality grouping
and max). -/
abbrev Month := Nat

/-- Derived Month value of a date, as computed by dt.to_period in
clean_data (src/app.py line 72). -/
def monthOf (d : Date) : Month := d.year * 100 + d.month

/-- The fixed category list, src/app.py line 18. -/
def CATEGORIES : List String :=
  ["Food", "Transport", "Entertainment", "Utilities", "Health", "Shopping", "Other"]

/-- True when the character list is nonempty and all decimal digits. -/
def digitsOnly (cs : List Char) : Bool :=
  !cs.isEmpty && cs.all Char.isDigit

/-- Decimal value of a digit list. -/
def natOfChars (cs : List Char) : Nat :=
  cs.foldl (fun n c => n * 10 + (c.toNat - 48)) 0

/-- Split a character list on a separator character; the separator is
dropped and the bordering (possibly empty) chunks are kept. -/
def splitOnChar (sep : Char) (cs : List Char) : List (List Char) :=
  cs.foldr
    (fun c acc =>
      if c = sep then [] :: acc
      else
        match acc with
        | [] => [[c]]
        | g :: gs => (c :: g) :: gs)
    [[]]

/-- Gregorian leap-year rule. -/
def isLeap (y : Nat) : Bool :=
  (y % 4 = 0 && y % 100 ≠ 0) || y % 400 = 0

/-- Number of days of a month. -/
def daysInMonth (y m : Nat) : Nat :=
  if m = 2 then (if isLeap y then 29 else 28)
  else if m = 4 ∨ m = 6 ∨ m = 9 ∨ m = 11 then 30
  else 31

/-- Model of pd.to_datetime on a string, restricted to the ISO
yyyy-mm-dd format (the only date format the claims exercise);
an unparsable string is None (errors=coerce gives NaT). -/
def parseDate (s : String) : Option Date :=
  match splitOnChar ('-') s.data with
  | [ys, ms, ds] =>
    if digitsOnly ys && digitsOnly ms && digitsOnly ds then
      let y := natOfChars ys
      let m := natOfChars ms
      let d := natOfChars ds
      if 1 ≤ m ∧ m ≤ 12 ∧ 1 ≤ d ∧ d ≤ daysInMonth y m then some ⟨y, m, d⟩
      else none
    else none
  | _ => none

/-- Unsigned decimal numeral (digits with an optional fractional part)
as an exact rational. -/
def parseUnsignedChars (cs : List Char) : Option ℚ :=
  match splitOnChar ('.') cs with
  | [ip] => if digitsOnly ip then some ((natOfChars ip : ℚ)) else none
  | [ip, fp] =>
    if digitsOnly ip && digitsOnly fp then
      some ((natOfChars ip : ℚ) + (natOfChars fp : ℚ) / ((10 : ℚ) ^ fp.length))
    else none
  | _ => none

/-- Model of pd.to_numeric on a string: an optionally minus-signed
decimal numeral; anything else is None (errors=coerce gives NaN). -/
def parseAmount (s : String) : Option ℚ :=
  match s.data with
  | [] => none
  | c :: rest =>
    if c = ('-') then (parseUnsignedChars rest).map Neg.neg
    else parseUnsignedChars (c :: rest)

/-- A raw Date cell of the session DataFrame: a string still to be
parsed, an already-parsed timestamp, or NaN/NaT. -/
inductive RawDate where
  | str (s : String)
  | dt (d : Date)
  | na
deriving DecidableEq, Repr

/-- pd.to_datetime with errors=coerce on one cell. -/
def toDatetime : RawDate → Option Date
  | RawDate.str s => parseDate s
  | RawDate.dt d => some d
  | RawDate.na => none

/-- A raw Amount cell: unparsed string, numeric value, or NaN. -/
inductive RawAmount where
  | str (s : String)
  | num (q : ℚ)
  | na
deriving DecidableEq, Repr

/-- pd.to_numeric with errors=coerce on one cell. -/
def toNumeric : RawAmount → Option ℚ
  | RawAmount.str s => parseAmount s
  | RawAmount.num q => some q
  | RawAmount.na => none

/-- One row of the raw session ledger st.session_state.df.  Category
and Description are object cells that are either a string or NaN
(Option.none). -/
structure RawRecord where
  date : RawDate
  category : Option String
  amount : RawAmount
  description : Option String
deriving DecidableEq, Repr

/-- One row of the cleaned DataFrame df_clean: columns Date, Category,
Amount, Description of the raw frame plus the derived Month column
appended by clean_data. -/
structure CleanRecord where
  date : Date
  category : String
  amount : ℚ
  description : String
  month : Month
deriving DecidableEq, Repr

/-- Row-level body of clean_data (src/app.py lines 66-73): coerce Date
and Amount, drop the row if any of its cells is NaN (dropna is over
all four columns), map Category to itself when it is an exact member
of CATEGORIES and to Other otherwise, and append Month.  The pandas
code applies these steps columnwise, but every step is row-independent,
so the whole transform is the filterMap of this function. -/
def cleanOne (r : RawRecord) : Option CleanRecord :=
  match toDatetime r.date, toNumeric r.amount, r.category, r.description with
  | some d, some a, some cat, some desc =>
    some
      { date := d
        category := if cat ∈ CATEGORIES then cat else "Other"
        amount := a
        description := desc
        month := monthOf d }
  | _, _, _, _ => none

/-- clean_data, src/app.py lines 65-73. -/
def clean_data (l : List RawRecord) : List CleanRecord :=
  l.filterMap cleanOne

/-- Re-inject a cleaned row as a raw row (what the cleaned frame holds
in its Date, Category, Amount, Description columns when it is fed back
to clean_data). -/
def cleanToRaw (c : CleanRecord) : RawRecord :=
  { date := RawDate.dt c.date
    category := some c.category
    amount := RawAmount.num c.amount
    description := some c.description }

/-- Insert into a list, before the first element not le-below the new
one (stable insertion step). -/
def insertLe (le : α → α → Bool) (x : α) : List α → List α
  | [] => [x]
  | y :: ys => if le x y then x :: y :: ys else y :: insertLe le x ys

/-- Insertion sort; models the ascending key order of a pandas
groupby. -/
def sortByLe (le : α → α → Bool) (l : List α) : List α :=
  l.foldr (insertLe le) []

/-- Boolean string order from the lexicographic order on String. -/
def strLe (a b : String) : Bool := decide (a ≤ b)

/-- Boolean order on month encodings. -/
def natLe (a b : Nat) : Bool := decide (a ≤ b)

/-- total_spent, src/app.py line 91: the Amount column summed. -/
def total_spent (l : List CleanRecord) : ℚ :=
  (l.map CleanRecord.amount).sum

/-- Sum of the Amount cells of the rows of one category
(one group of groupby Category). -/
def catTotal (l : List CleanRecord) (c : String) : ℚ :=
  ((l.filter fun r => decide (r.category = c)).map CleanRecord.amount).sum

/-- Sum of the Amount cells of the rows of one month (one group of
groupby Month; also the monthly_total of src/app.py line 85). -/
def monthTotal (l : List CleanRecord) (m : Month) : ℚ :=
  ((l.filter fun r => decide (r.month = m)).map CleanRecord.amount).sum

/-- The distinct categories of the frame, in the ascending key order a
pandas groupby emits. -/
def catKeys (l : List CleanRecord) : List String :=
  sortByLe strLe (l.map CleanRecord.category).dedup

/-- cat_sum, src/app.py line 109: groupby Category, Amount summed. -/
def cat_sum (l : List CleanRecord) : List (String × ℚ) :=
  (catKeys l).map fun c => (c, catTotal l c)

/-- The distinct months of the frame in chronological (ascending key)
order. -/
def monthKeys (l : List CleanRecord) : List Month :=
  sortByLe natLe (l.map CleanRecord.month).dedup

/-- monthly_sum, src/app.py line 117 (and the series of line 93 and of
the Monthly Summary sheet): groupby Month, Amount summed. -/
def monthly_sum (l : List CleanRecord) : List (Month × ℚ) :=
  (monthKeys l).map fun m => (m, monthTotal l m)

/-- avg_monthly, src/app.py line 93: the mean of the per-month sums
(sum of the grouped series divided by the number of groups). -/
def avg_monthly (l : List CleanRecord) : ℚ :=
  ((monthly_sum l).map Prod.snd).sum / ((monthly_sum l).length : ℚ)

/-- current_month, src/app.py line 84: the max of the Month column. -/
def maxMonth (l : List CleanRecord) : Month :=
  (l.map CleanRecord.month).foldl max 0

/-- Distinct months of the frame in first-occurrence order; the
grouping domain used to state the spec-side average. -/
def monthsPresent (l : List CleanRecord) : List Month :=
  (l.map CleanRecord.month).dedup

/-- Spec-side average, in the words of the specification: group the
amounts by month, sum within each month, then take the arithmetic mean
across the months present. -/
def specAvgMonthly (l : List CleanRecord) : ℚ :=
  ((monthsPresent l).map fun m => monthTotal l m).sum / ((monthsPresent l).length : ℚ)

/-- Linear month index, for counting elapsed months across years. -/
def monthIdx (ym : Month) : Nat := ym / 100 * 12 + ym % 100

/-- Earliest month of the frame. -/
def minMonth (l : List CleanRecord) : Month :=
  match l.map CleanRecord.month with
  | [] => 0
  | m :: ms => ms.foldl Nat.min m

/-- Number of calendar months elapsed from the earliest to the latest
month of the frame, both inclusive (the divisor the spec contrasts the
implemented average against). -/
def elapsedMonthCount (l : List CleanRecord) : Nat :=
  monthIdx (maxMonth l) + 1 - monthIdx (minMonth l)

/-- The data carried by the budget alert banner of src/app.py line 87:
the latest-month spend, the budget, and the overage. -/
structure Alert where
  monthlyTotal : ℚ
  budget : ℚ
  overage : ℚ
deriving DecidableEq, Repr

/-- Budget Alert block, src/app.py lines 83-87: active only when the
configured budget is positive; fires when the latest-month spend
strictly exceeds the budget. -/
def budgetAlert (l : List CleanRecord) (budget : ℚ) : Option Alert :=
  if 0 < budget then
    if budget < monthTotal l (maxMonth l) then
      some ⟨monthTotal l (maxMonth l), budget, monthTotal l (maxMonth l) - budget⟩
    else none
  else none

/-- The session state, src/app.py lines 12-15: the raw ledger frame
and the budget. -/
structure SessionState where
  df : List RawRecord
  budget : ℚ
deriving DecidableEq, Repr

/-- Add Expense handler, src/app.py lines 29-41: a positive amount is
appended (with an empty description replaced by N/A); otherwise the
state is unchanged and an error is shown (the Bool result is the
success flag). -/
def addExpense (s : SessionState) (d : Date) (cat : String) (amt : ℚ)
    (desc : String) : SessionState × Bool :=
  if 0 < amt then
    ({ df := s.df ++
        [{ date := RawDate.dt d
           category := some cat
           amount := RawAmount.num amt
           description := some (if desc = "" then "N/A" else desc) }]
       budget := s.budget }, true)
  else (s, false)

/-- Set Budget handler, src/app.py lines 46-48. -/
def setBudget (s : SessionState) (b : ℚ) : SessionState :=
  { df := s.df, budget := b }

/-- An uploaded CSV file after pd.read_csv: a header row naming the
columns and the cell grid.  A blank cell is the empty string; read_csv
turns blank cells into NaN, which cellVal models. -/
structure CSV where
  header : List String
  rows : List (List String)
deriving DecidableEq, Repr

/-- Position of a column in the header. -/
def findCol (csv : CSV) (c : String) : Option Nat :=
  csv.header.findIdx? (fun h => h == c)

/-- Raw cell of a row under a column name; none when the column or the
cell is missing. -/
def cellRaw (csv : CSV) (c : String) (row : List String) : Option String :=
  (findCol csv c).bind fun i => row.get? i

/-- Cell value after read_csv: a blank cell is NaN (none). -/
def cellVal (csv : CSV) (c : String) (row : List String) : Option String :=
  (cellRaw csv c row).bind fun v => if v = "" then none else some v

/-- Whether a cell of the row is NaN after the coercions of src/app.py
lines 55-56: the Date column holds NaT when the date does not parse,
the Amount column NaN when the numeral does not parse, and every other
column NaN exactly when the cell is blank or missing. -/
def colIsNA (csv : CSV) (row : List String) (c : String) : Bool :=
  if c = "Date" then ((cellVal csv c row).bind parseDate).isNone
  else if c = "Amount" then ((cellVal csv c row).bind parseAmount).isNone
  else (cellVal csv c row).isNone

/-- dropna row predicate (src/app.py line 57): the row survives when
no cell of any column of the file is NaN. -/
def rowKept (csv : CSV) (row : List String) : Bool :=
  csv.header.all fun c => !(colIsNA csv row c)

/-- Build the ledger row appended for one surviving CSV row: parsed
date, Category mapped into CATEGORIES (line 58), parsed amount, and
the Description cell (the fillna of line 59 is the getD; after dropna
no NaN description survives, so the default is never exercised).  The
getD defaults of the date and amount are dead code for surviving rows,
where both parses succeed. -/
def rowToRecord (csv : CSV) (row : List String) : RawRecord :=
  { date := RawDate.dt (((cellVal csv ("Date") row).bind parseDate).getD ⟨1970, 1, 1⟩)
    category := some
      (let c := (cellVal csv ("Category") row).getD ""
       if c ∈ CATEGORIES then c else "Other")
    amount := RawAmount.num (((cellVal csv ("Amount") row).bind parseAmount).getD 0)
    description := some ((cellVal csv ("Description") row).getD "N/A") }

/-- The columns the upload handler requires, src/app.py line 54. -/
def requiredCols : List String := ["Date", "Category", "Amount"]

/-- Outcome of the CSV upload handler, src/app.py lines 52-62.
noUpload: the required-column guard of line 54 failed, the whole block
is skipped and nothing is shown (a silent no-op).  crash: line 59
raised AttributeError, because with no Description column
df_upload.get returns the plain string N/A, and a str has no fillna
method; the exception aborts the handler before the concat of line 60,
so nothing is appended and no count is reported.  ok: the new ledger
after the concat, with the row count of the success message of
line 61. -/
inductive UploadOutcome where
  | noUpload
  | crash
  | ok (newDf : List RawRecord) (count : Nat)
deriving DecidableEq, Repr

/-- CSV upload handler, src/app.py lines 52-62. -/
def uploadCSV (s : SessionState) (csv : CSV) : UploadOutcome :=
  if requiredCols.all (fun c => csv.header.contains c) then
    if csv.header.contains ("Description") then
      UploadOutcome.ok (s.df ++ (csv.rows.filter (rowKept csv)).map (rowToRecord csv))
        (csv.rows.filter (rowKept csv)).length
    else UploadOutcome.crash
  else UploadOutcome.noUpload

/-- Header of the Expenses sheet of the exported report: line 129
writes df_clean whole, so the derived Month column appended by
clean_data is part of the sheet. -/
def expensesSheetHeader : List String :=
  ["Date", "Category", "Amount", "Description", "Month"]

/-- Rows of the Expenses sheet: one row per cleaned record, in frame
order, each holding the five column values of the record. -/
def expensesSheetRows (l : List CleanRecord) : List (Date × String × ℚ × String × Month) :=
  l.map fun r => (r.date, r.category, r.amount, r.description, r.month)

/-- Sheet names of the exported workbook, in the order they are
written (src/app.py lines 129-133). -/
def reportSheetNames : List String :=
  ["Expenses", "Category Summary", "Monthly Summary"]

/-- Everything the dashboard body computes from the session when the
cleaned frame is nonempty (src/app.py lines 82-139). -/
structure ViewModel where
  cleaned : List CleanRecord
  alert : Option Alert
  total : ℚ
  avgMonthly : ℚ
  entryCount : Nat
  catSummary : List (String × ℚ)
  monthlySummary : List (Month × ℚ)
  sheetNames : List String
  expensesHeader : List String
  expensesRows : List (Date × String × ℚ × String × Month)
deriving DecidableEq, Repr

/-- A rendered dashboard: the empty-state hint of line 80, or the full
dashboard. -/
inductive View where
  | emptyState
  | dashboard (vm : ViewModel)
deriving DecidableEq, Repr

/-- The dashboard body, src/app.py lines 76-139: clean the ledger and
derive every displayed value.  It reads the session but never assigns
st.session_state, which the returned state component records. -/
def viewDashboard (s : SessionState) : SessionState × View :=
  if clean_data s.df = [] then (s, View.emptyState)
  else
    (s, View.dashboard
      { cleaned := clean_data s.df
        alert := budgetAlert (clean_data s.df) s.budget
        total := total_spent (clean_data s.df)
        avgMonthly := avg_monthly (clean_data s.df)
        entryCount := (clean_data s.df).length
        catSummary := cat_sum (clean_data s.df)
        monthlySummary := monthly_sum (clean_data s.df)
        sheetNames := reportSheetNames
        expensesHeader := expensesSheetHeader
        expensesRows := expensesSheetRows (clean_data s.df) })

/-- Fresh session: empty ledger, budget 0 (src/app.py lines 12-15). -/
def emptySession : SessionState := { df := [], budget := 0 }

/-- Concrete raw row: 2024-01-05, Food, 50, lunch. -/
def rawJan5 : RawRecord :=
  { date := RawDate.dt ⟨2024, 1, 5⟩
    category := some ("Food")
    amount := RawAmount.num 50
    description := some ("lunch") }

/-- Concrete raw row: 2024-01-20, Food, 30, N/A. -/
def rawJan20 : RawRecord :=
  { date := RawDate.dt ⟨2024, 1, 20⟩
    category := some ("Food")
    amount := RawAmount.num 30
    description := some ("N/A") }

/-- Concrete cleaned ledger: January 2024 spend of 50 and 30
(the example of the specification, budget 75). -/
def demoClean : List CleanRecord :=
  [⟨⟨2024, 1, 5⟩, "Food", 50, "lunch", 202401⟩,
   ⟨⟨2024, 1, 20⟩, "Food", 30, "N/A", 202401⟩]

/-- Concrete cleaned ledger with months January (total 10) and March
(total 30) of 2024: per-month mean 20, while total divided by the
three elapsed months is 40 / 3. -/
def demoTwoMonths : List CleanRecord :=
  [⟨⟨2024, 1, 5⟩, "Food", 10, "a", 202401⟩,
   ⟨⟨2024, 3, 1⟩, "Transport", 30, "b", 202403⟩]

/-- CSV batch with a negative amount and all columns present. -/
def negCSV : CSV :=
  { header := ["Date", "Category", "Amount", "Description"]
    rows := [["2024-01-05", "Food", "-5", "x"]] }

/-- The ledger row the upload of negCSV appends. -/
def negRaw : RawRecord :=
  { date := RawDate.dt ⟨2024, 1, 5⟩
    category := some ("Food")
    amount := RawAmount.num (-5)
    description := some ("x") }

/-- CSV batch whose single data row has a blank Description cell. -/
def blankDescCSV : CSV :=
  { header := ["Date", "Category", "Amount", "Description"]
    rows := [["2024-03-01", "Food", "10", ""]] }

/-- The CSV batch of claim C7: header Date,Category,Amount and the two
rows 2024-03-01,Food,15.5 and bad-date,Food,10. -/
def noDescCSV : CSV :=
  { header := ["Date", "Category", "Amount"]
    rows := [["2024-03-01", "Food", "15.5"], ["bad-date", "Food", "10"]] }

/-- CSV batch missing the required Amount column. -/
def missingColCSV : CSV :=
  { header := ["Date", "Category"]
    rows := [["2024-03-01", "Food"]] }

/-- Well-formed one-row CSV batch with every column present. -/
def okCSV : CSV :=
  { header := ["Date", "Category", "Amount", "Description"]
    rows := [["2024-03-01", "Food", "15", "x"]] }

/-- The ledger row the upload of okCSV appends. -/
def okCSVRaw : RawRecord :=
  { date := RawDate.dt ⟨2024, 3, 1⟩
    category := some ("Food")
    amount := RawAmount.num ((15 : Nat) : ℚ)
    description := some ("x") }

/-- The cleaned record produced from rawJan5. -/
def cleanJan5 : CleanRecord := ⟨⟨2024, 1, 5⟩, "Food", 50, "lunch", 202401⟩

/-- Concrete session: the two January rows and budget 75. -/
def demoSession : SessionState := { df := [rawJan5, rawJan20], budget := 75 }

/-! Helper lemmas about list sums, sorting and folded maxima, shared
by the claim theorems below. -/

theorem sum_map_filter_not (p : α → Bool) (f : α → ℚ) (l : List α) :
    ((l.filter p).map f).sum + ((l.filter fun a => !(p a)).map f).sum = (l.map f).sum := by
  induction l with
  | nil => simp
  | cons a t ih =>
    by_cases h : p a
    · simp [List.filter_cons, h]
      linarith [ih]
    · simp [List.filter_cons, h]
      linarith [ih]

theorem sum_over_keys {α : Type} {K : Type} [DecidableEq K] (key : α → K) (f : α → ℚ) :
    ∀ (ks : List K) (l : List α), ks.Nodup → (∀ a ∈ l, key a ∈ ks) →
      (ks.map fun k => ((l.filter fun a => decide (key a = k)).map f).sum).sum
        = (l.map f).sum := by
  intro ks
  induction ks with
  | nil =>
    intro l _ hmem
    cases l with
    | nil => simp
    | cons a t => exact absurd (hmem a (by simp)) (by simp)
  | cons k ks ih =>
    intro l hnd hmem
    have hk : k ∉ ks := (List.nodup_cons.mp hnd).1
    have hnd' : ks.Nodup := (List.nodup_cons.mp hnd).2
    have hfilter : ∀ k' ∈ ks,
        ((l.filter fun a => !(decide (key a = k))).filter fun a => decide (key a = k'))
          = l.filter fun a => decide (key a = k') := by
      intro k' hk'
      have hne : k' ≠ k := fun he => hk (he ▸ hk')
      rw [List.filter_filter]
      apply List.filter_congr
      intro a _
      by_cases ha : key a = k'
      · simp [ha, hne]
      · simp [ha]
    have hrest :
        (ks.map fun k' => ((l.filter fun a => decide (key a = k')).map f).sum).sum
          = (((l.filter fun a => !(decide (key a = k))).map f)).sum := by
      rw [← ih (l.filter fun a => !(decide (key a = k))) hnd' ?_]
      · apply congrArg List.sum
        apply List.map_congr_left
        intro k' hk'
        rw [hfilter k' hk']
      · intro a ha
        have h1 := (List.mem_filter.mp ha).1
        have h2 := (List.mem_filter.mp ha).2
        have hne : key a ≠ k := by simpa using h2
        rcases List.mem_cons.mp (hmem a h1) with h | h
        · exact absurd h hne
        · exact h
    simp only [List.map_cons, List.sum_cons]
    rw [hrest]
    exact sum_map_filter_not (fun a => decide (key a = k)) f l

theorem insertLe_perm (le : α → α → Bool) (x : α) (l : List α) :
    List.Perm (insertLe le x l) (x :: l) := by
  induction l with
  | nil => exact List.Perm.refl _
  | cons y ys ih =>
    by_cases h : le x y
    · simp [insertLe, h]
    · simp only [insertLe, if_neg h]
      exact (ih.cons y).trans (List.Perm.swap x y ys)

theorem sortByLe_perm (le : α → α → Bool) (l : List α) : List.Perm (sortByLe le l) l := by
  induction l with
  | nil => exact List.Perm.refl _
  | cons a t ih =>
    exact (insertLe_perm le a (sortByLe le t)).trans (ih.cons a)

theorem foldl_max_init_le (xs : List Nat) (i : Nat) : i ≤ xs.foldl max i := by
  induction xs generalizing i with
  | nil => simp
  | cons x t ih =>
    simp only [List.foldl_cons]
    exact le_trans (le_max_left i x) (ih (max i x))

theorem mem_le_foldl_max (xs : List Nat) (i : Nat) : ∀ x ∈ xs, x ≤ xs.foldl max i := by
  induction xs generalizing i with
  | nil => simp
  | cons y t ih =>
    intro x hx
    simp only [List.foldl_cons]
    rcases List.mem_cons.mp hx with h | h
    · subst h
      exact le_trans (le_max_right i x) (foldl_max_init_le t _)
    · exact ih (max i y) x h

theorem foldl_max_eq_or_mem (xs : List Nat) (i : Nat) :
    xs.foldl max i = i ∨ xs.foldl max i ∈ xs := by
  induction xs generalizing i with
  | nil => exact Or.inl rfl
  | cons y t ih =>
    simp only [List.foldl_cons]
    rcases ih (max i y) with h | h
    · rcases max_choice i y with h2 | h2
      · exact Or.inl (h.trans h2)
      · exact Or.inr (by rw [h, h2]; exact List.mem_cons_self y t)
    · exact Or.inr (List.mem_cons_of_mem y h)

theorem ite_mem_CATEGORIES (rc : String) :
    (if rc ∈ CATEGORIES then rc else "Other") ∈ CATEGORIES := by
  by_cases h : rc ∈ CATEGORIES
  · simp [h]
  · simp only [h, if_false]
    decide

/-- Inversion principle for membership in the cleaned frame: every
cleaned row has a category of the fixed list, a Month cell derived
from its date, and stems from a raw row whose date and amount both
coerce successfully. -/
theorem mem_clean_data (l : List RawRecord) (c : CleanRecord) (h : c ∈ clean_data l) :
    c.category ∈ CATEGORIES ∧ c.month = monthOf c.date ∧
      ∃ r ∈ l, toDatetime r.date = some c.date ∧ toNumeric r.amount = some c.amount ∧
        ∃ rc, r.category = some rc ∧
          c.category = (if rc ∈ CATEGORIES then rc else "Other") ∧
          r.description = some c.description := by
  obtain ⟨r, hr, hfr⟩ := List.mem_filterMap.mp h
  rcases hdt : toDatetime r.date with _ | d <;>
    rcases hnum : toNumeric r.amount with _ | a <;>
    rcases hcat : r.category with _ | cat <;>
    rcases hdesc : r.description with _ | desc <;>
    rw [cleanOne, hdt, hnum, hcat, hdesc] at hfr <;>
    try exact Option.noConfusion hfr
  have hc : c = { date := d
                  category := if cat ∈ CATEGORIES then cat else "Other"
                  amount := a
                  description := desc
                  month := monthOf d } := (Option.some.inj hfr).symm
  subst hc
  refine ⟨ite_mem_CATEGORIES cat, rfl, r, hr, hdt, hnum, cat, hcat, rfl, hdesc⟩

/-- A row whose category is already of the fixed list and whose Month
cell matches its date passes through cleanOne unchanged. -/
theorem cleanOne_cleanToRaw (c : CleanRecord) (hc : c.category ∈ CATEGORIES)
    (hm : c.month = monthOf c.date) : cleanOne (cleanToRaw c) = some c := by
  rw [cleanOne, cleanToRaw]
  simp only [toDatetime, toNumeric]
  rw [if_pos hc]
  cases c
  simp at hm
  simp [hm]

/-- Re-cleaning any already-clean frame returns it unchanged. -/
theorem clean_of_cleaned (cl : List CleanRecord)
    (hcl : ∀ c ∈ cl, c.category ∈ CATEGORIES ∧ c.month = monthOf c.date) :
    clean_data (cl.map cleanToRaw) = cl := by
  induction cl with
  | nil => rfl
  | cons c t ih =>
    have h1 := hcl c (List.mem_cons_self c t)
    have ht : clean_data (t.map cleanToRaw) = t :=
      ih fun c' hc' => hcl c' (List.mem_cons_of_mem c hc')
    simp only [List.map_cons, clean_data, List.filterMap_cons,
      cleanOne_cleanToRaw c h1.1 h1.2]
    rw [clean_data] at ht
    rw [ht]

/-- For a nonempty frame, the folded maximum of the Month column is a
month actually present. -/
theorem maxMonth_mem (l : List CleanRecord) (h : l ≠ []) :
    maxMonth l ∈ l.map CleanRecord.month := by
  rcases foldl_max_eq_or_mem (l.map CleanRecord.month) 0 with h0 | hm
  · cases l with
    | nil => exact absurd rfl h
    | cons c t =>
      have hc : c.month ∈ (c :: t).map CleanRecord.month := by simp
      have hle := mem_le_foldl_max ((c :: t).map CleanRecord.month) 0 c.month hc
      simp only [maxMonth] at h0 ⊢
      rw [h0] at hle
      have hz : c.month = 0 := Nat.le_zero.mp hle
      rw [h0, ← hz]
      exact hc
  · exact hm

/-- Claim C1 (amended): every record of the cleaned ledger has a
successfully parsed calendar date (its Month cell derived from it), a
numeric amount, and a category of the fixed seven-element list, any
raw category that is not an exact case-sensitive member having been
replaced by Other.  (The non-negativity asserted by the original claim
does not hold; see the counterexample.) -/
theorem C1_cleaned_records_valid (l : List RawRecord) (c : CleanRecord)
    (hc : c ∈ clean_data l) :
    c.category ∈ CATEGORIES ∧ c.month = monthOf c.date ∧
      ∃ r ∈ l, toDatetime r.date = some c.date ∧ toNumeric r.amount = some c.amount ∧
        ∃ rc, r.category = some rc ∧
          c.category = (if rc ∈ CATEGORIES then rc else "Other") ∧
          r.description = some c.description :=
  mem_clean_data l c hc

/-- Claim C1, witness: the concrete cleaned record of the January 5
raw row instantiates the theorem. -/
theorem C1_witness :
    cleanJan5.category ∈ CATEGORIES ∧ cleanJan5.month = monthOf cleanJan5.date ∧
      ∃ r ∈ [rawJan5, rawJan20], toDatetime r.date = some cleanJan5.date ∧
        toNumeric r.amount = some cleanJan5.amount ∧
        ∃ rc, r.category = some rc ∧
          cleanJan5.category = (if rc ∈ CATEGORIES then rc else "Other") ∧
          r.description = some cleanJan5.description :=
  C1_cleaned_records_valid [rawJan5, rawJan20] cleanJan5 (by decide)

/-- Claim C1, counterexample to the original wording: a CSV row with
amount -5 passes the upload handler (to_numeric parses it, dropna does
not drop it, no sign check exists on the CSV path) and survives
clean_data with a negative amount, so the cleaned ledger is not
amount-non-negative. -/
theorem C1_counterexample :
    uploadCSV emptySession negCSV = UploadOutcome.ok [negRaw] 1 ∧
    ∃ c ∈ clean_data [negRaw], c.amount < 0 := by decide

/-- Claim C2: cleaning is idempotent (feeding the cleaned frame back
through clean_data returns it unchanged) and deterministic (the
cleaned output is a function of the raw ledger content alone). -/
theorem C2_clean_idempotent_deterministic :
    (∀ l : List RawRecord, clean_data ((clean_data l).map cleanToRaw) = clean_data l) ∧
    (∀ l₁ l₂ : List RawRecord, l₁ = l₂ → clean_data l₁ = clean_data l₂) := by
  constructor
  · intro l
    apply clean_of_cleaned
    intro c hc
    exact ⟨(mem_clean_data l c hc).1, (mem_clean_data l c hc).2.1⟩
  · intro l₁ l₂ h12
    rw [h12]

/-- Claim C2, witness: idempotence and determinism instantiated on the
concrete two-row ledger. -/
theorem C2_witness :
    clean_data ((clean_data [rawJan5, rawJan20]).map cleanToRaw)
        = clean_data [rawJan5, rawJan20] ∧
    clean_data [rawJan5] = clean_data [rawJan5] :=
  ⟨C2_clean_idempotent_deterministic.1 [rawJan5, rawJan20],
   C2_clean_idempotent_deterministic.2 [rawJan5] [rawJan5] rfl⟩

/-- Claim C3: for a nonempty cleaned ledger the budget alert fires
exactly when the budget is positive and the spend of the
chronologically latest month present (the month that is both present
and an upper bound of all present months) strictly exceeds the budget;
a fired alert carries that month total, the budget, and exactly their
difference as the overage. -/
theorem C3_budget_alert_iff (l : List CleanRecord) (b : ℚ) (h : l ≠ []) :
    ((budgetAlert l b).isSome ↔
      (0 < b ∧ ∃ M, (M ∈ l.map CleanRecord.month ∧
        ∀ m ∈ l.map CleanRecord.month, m ≤ M) ∧ b < monthTotal l M)) ∧
    (∀ a : Alert, budgetAlert l b = some a →
      a.monthlyTotal = monthTotal l (maxMonth l) ∧ a.budget = b ∧
      a.overage = monthTotal l (maxMonth l) - b) := by
  have hmem := maxMonth_mem l h
  have hub := mem_le_foldl_max (l.map CleanRecord.month) 0
  constructor
  · rw [budgetAlert]
    by_cases hb : 0 < b
    · rw [if_pos hb]
      by_cases hlt : b < monthTotal l (maxMonth l)
      · rw [if_pos hlt]
        simp only [Option.isSome_some, true_iff]
        exact ⟨hb, maxMonth l, ⟨hmem, hub⟩, hlt⟩
      · rw [if_neg hlt]
        simp only [Option.isSome_none, Bool.false_eq_true, false_iff]
        rintro ⟨hb', M, ⟨hMmem, hMub⟩, hMlt⟩
        have hMeq : M = maxMonth l := le_antisymm (hub M hMmem) (hMub _ hmem)
        rw [hMeq] at hMlt
        exact hlt hMlt
    · rw [if_neg hb]
      simp only [Option.isSome_none, Bool.false_eq_true, false_iff]
      rintro ⟨hb', _⟩
      exact hb hb'
  · intro a ha
    rw [budgetAlert] at ha
    by_cases hb : 0 < b
    · rw [if_pos hb] at ha
      by_cases hlt : b < monthTotal l (maxMonth l)
      · rw [if_pos hlt] at ha
        cases Option.some.inj ha
        exact ⟨rfl, rfl, rfl⟩
      · rw [if_neg hlt] at ha
        exact Option.noConfusion ha
    · rw [if_neg hb] at ha
      exact Option.noConfusion ha

/-- Claim C3, witness: the specification example, January 2024 spend
80 against budget 75. -/
theorem C3_witness :
    ((budgetAlert demoClean 75).isSome ↔
      (0 < (75 : ℚ) ∧ ∃ M, (M ∈ demoClean.map CleanRecord.month ∧
        ∀ m ∈ demoClean.map CleanRecord.month, m ≤ M) ∧
          75 < monthTotal demoClean M)) ∧
    ((⟨80, 75, 5⟩ : Alert).monthlyTotal = monthTotal demoClean (maxMonth demoClean) ∧
      (⟨80, 75, 5⟩ : Alert).budget = 75 ∧
      (⟨80, 75, 5⟩ : Alert).overage = monthTotal demoClean (maxMonth demoClean) - 75) :=
  ⟨(C3_budget_alert_iff demoClean 75 (by decide)).1,
   (C3_budget_alert_iff demoClean 75 (by decide)).2 ⟨80, 75, 5⟩
     (by norm_num [budgetAlert, monthTotal, maxMonth, demoClean])⟩

/-- Claim C4: the total spend equals the sum of the per-category sums
and the sum of the per-month sums, for every cleaned ledger. -/
theorem C4_total_equals_summaries (l : List CleanRecord) :
    total_spent l = ((cat_sum l).map Prod.snd).sum ∧
    total_spent l = ((monthly_sum l).map Prod.snd).sum := by
  constructor
  · have hnd : (catKeys l).Nodup :=
      ((sortByLe_perm strLe ((l.map CleanRecord.category).dedup)).nodup_iff).mpr
        (List.nodup_dedup _)
    have hcov : ∀ r ∈ l, r.category ∈ catKeys l := by
      intro r hr
      exact ((sortByLe_perm strLe _).mem_iff).mpr
        (List.mem_dedup.mpr (List.mem_map_of_mem _ hr))
    have hkeys := sum_over_keys CleanRecord.category CleanRecord.amount
      (catKeys l) l hnd hcov
    rw [total_spent, ← hkeys, cat_sum, List.map_map]
    rfl
  · have hnd : (monthKeys l).Nodup :=
      ((sortByLe_perm natLe ((l.map CleanRecord.month).dedup)).nodup_iff).mpr
        (List.nodup_dedup _)
    have hcov : ∀ r ∈ l, r.month ∈ monthKeys l := by
      intro r hr
      exact ((sortByLe_perm natLe _).mem_iff).mpr
        (List.mem_dedup.mpr (List.mem_map_of_mem _ hr))
    have hkeys := sum_over_keys CleanRecord.month CleanRecord.amount
      (monthKeys l) l hnd hcov
    rw [total_spent, ← hkeys, monthly_sum, List.map_map]
    rfl

/-- Claim C5, code evaluation: the manual-entry path does substitute
N/A for an empty description (first conjunct, the true part of the
claim), but on the CSV path a row whose Description cell is blank is
NaN after read_csv and is dropped by the dropna of line 57 before the
fillna of line 59 can fill it, so the upload appends nothing and
reports zero rows (second conjunct, refuting the retention the claim
asserts). -/
theorem C5_description_eval :
    (addExpense emptySession ⟨2024, 1, 5⟩ ("Food") 10 ("")).1.df =
      [{ date := RawDate.dt ⟨2024, 1, 5⟩
         category := some ("Food")
         amount := RawAmount.num 10
         description := some ("N/A") }] ∧
    uploadCSV emptySession blankDescCSV = UploadOutcome.ok [] 0 := by decide

/-- Claim C6, code evaluation: a CSV batch missing a required column
makes the guard of line 54 false, so the whole upload block is
skipped: no rows are appended, per-row normalization never runs, but
no error signal of any kind is produced either (the claim asserts an
error signal; the code is a silent no-op). -/
theorem C6_missing_columns_eval :
    ∀ s : SessionState, uploadCSV s missingColCSV = UploadOutcome.noUpload :=
  fun _ => rfl

/-- Claim C7, code evaluation: on the exact CSV of the claim (header
Date,Category,Amount, rows 2024-03-01,Food,15.5 and bad-date,Food,10)
the handler crashes at line 59 with AttributeError, because the file
has no Description column, df_upload.get returns the plain string N/A,
and a str has no fillna method; the exception aborts the handler
before the concat, so no record is appended and no count is
reported — not one record with count 1 as the claim states. -/
theorem C7_upload_crash_eval :
    ∀ s : SessionState, uploadCSV s noDescCSV = UploadOutcome.crash :=
  fun _ => rfl

/-- Claim C8, counterexample to the original wording: line 129 exports
df_clean whole, and clean_data has appended the derived Month column,
so for the concrete nonempty cleaned ledger the Expenses sheet has a
Month column and its column list is not the four-column list the claim
asserts. -/
theorem C8_counterexample :
    demoClean ≠ [] ∧ ("Month") ∈ expensesSheetHeader ∧
      expensesSheetHeader ≠ ["Date", "Category", "Amount", "Description"] := by decide

/-- Claim C8 (amended): for every session whose cleaned ledger is
nonempty, the first sheet of the exported report is named Expenses and
contains the columns Date, Category, Amount, Description and the
derived Month column, one row per cleaned record, in ledger order. -/
theorem C8_expenses_sheet (s : SessionState) (h : clean_data s.df ≠ []) :
    ∃ vm, (viewDashboard s).2 = View.dashboard vm ∧
      vm.sheetNames.head? = some ("Expenses") ∧
      vm.expensesHeader = ["Date", "Category", "Amount", "Description", "Month"] ∧
      vm.cleaned = clean_data s.df ∧
      vm.expensesRows = (clean_data s.df).map
        (fun r => (r.date, r.category, r.amount, r.description, r.month)) ∧
      vm.expensesRows.length = (clean_data s.df).length := by
  rw [viewDashboard, if_neg h]
  exact ⟨_, rfl, rfl, rfl, rfl, rfl, by simp [expensesSheetRows]⟩

/-- Claim C8, witness: the amended statement instantiated on the
concrete two-row session. -/
theorem C8_witness :
    ∃ vm, (viewDashboard demoSession).2 = View.dashboard vm ∧
      vm.sheetNames.head? = some ("Expenses") ∧
      vm.expensesHeader = ["Date", "Category", "Amount", "Description", "Month"] ∧
      vm.cleaned = clean_data demoSession.df ∧
      vm.expensesRows = (clean_data demoSession.df).map
        (fun r => (r.date, r.category, r.amount, r.description, r.month)) ∧
      vm.expensesRows.length = (clean_data demoSession.df).length :=
  C8_expenses_sheet demoSession (by decide)

/-- Claim C9: avg_monthly is the arithmetic mean of the per-month sums
(group by month, sum within each month, average across the months
present) — proved for every cleaned ledger — and on the concrete
two-month ledger (January total 10, March total 30) it equals 20,
while the total divided by the elapsed-month span equals 40 / 3,
exhibiting the distinction the claim draws. -/
theorem C9_avg_monthly_mean :
    (∀ l : List CleanRecord, avg_monthly l = specAvgMonthly l) ∧
    avg_monthly demoTwoMonths = 20 ∧
    total_spent demoTwoMonths / ((elapsedMonthCount demoTwoMonths : Nat) : ℚ) = 40 / 3 := by
  refine ⟨?_, ?_, ?_⟩
  · intro l
    rw [avg_monthly, specAvgMonthly]
    have hperm := sortByLe_perm natLe ((l.map CleanRecord.month).dedup)
    have h1 : (monthly_sum l).map Prod.snd
        = (monthKeys l).map (fun m => monthTotal l m) := by
      rw [monthly_sum, List.map_map]
      rfl
    have h2 : ((monthKeys l).map (fun m => monthTotal l m)).sum
        = ((monthsPresent l).map (fun m => monthTotal l m)).sum :=
      (hperm.map _).sum_eq
    have h3 : (monthly_sum l).length = (monthsPresent l).length := by
      rw [monthly_sum, List.length_map]
      exact hperm.length_eq
    rw [h1, h2, h3]
  · norm_num [avg_monthly, monthly_sum, monthKeys, monthTotal, demoTwoMonths,
      sortByLe, insertLe, natLe]
  · norm_num [total_spent, demoTwoMonths, elapsedMonthCount, monthIdx, maxMonth,
      minMonth]

/-- Claim C10: viewing the dashboard returns the session state
unchanged (cleaning, aggregation, alert evaluation and export read the
ledger and budget but never write them); the Add Expense handler keeps
the budget and only ever appends to the ledger; Set Budget leaves the
ledger alone; and a successful CSV upload only ever appends to the
ledger. -/
theorem C10_view_is_read_only :
    (∀ s : SessionState, (viewDashboard s).1 = s) ∧
    (∀ (s : SessionState) (d : Date) (cat : String) (amt : ℚ) (desc : String),
      ((addExpense s d cat amt desc).1).budget = s.budget ∧
      ∃ ap, ((addExpense s d cat amt desc).1).df = s.df ++ ap) ∧
    (∀ (s : SessionState) (b : ℚ), (setBudget s b).df = s.df) ∧
    (∀ (s : SessionState) (csv : CSV) (newDf : List RawRecord) (n : Nat),
      uploadCSV s csv = UploadOutcome.ok newDf n → ∃ ap, newDf = s.df ++ ap) := by
  refine ⟨?_, ?_, ?_, ?_⟩
  · intro s
    rw [viewDashboard]
    by_cases h : clean_data s.df = [] <;> simp [h]
  · intro s d cat amt desc
    rw [addExpense]
    by_cases h : 0 < amt
    · rw [if_pos h]
      exact ⟨rfl, _, rfl⟩
    · rw [if_neg h]
      exact ⟨rfl, [], (List.append_nil s.df).symm⟩
  · intro s b
    rfl
  · intro s csv newDf n hup
    rw [uploadCSV] at hup
    by_cases h1 : requiredCols.all (fun c => csv.header.contains c)
    · rw [if_pos h1] at hup
      by_cases h2 : csv.header.contains ("Description")
      · rw [if_pos h2] at hup
        injection hup with hdf hn
        exact ⟨_, hdf.symm⟩
      · rw [if_neg h2] at hup
        exact UploadOutcome.noConfusion hup
    · rw [if_neg h1] at hup
      exact UploadOutcome.noConfusion hup

/-- Claim C10, witness: a successful concrete upload appends its rows
to the (empty) ledger. -/
theorem C10_witness : ∃ ap, [okCSVRaw] = emptySession.df ++ ap :=
  C10_view_is_read_only.2.2.2 emptySession okCSV [okCSVRaw] 1 (by decide)

end ExpenseTrack
